import Mathlib

/-!
Verification of the space-time fabric simulator.

The development shallowly embeds the per-frame simulation core of the
repository: the Zustand body store (`src/lib/store.ts`), the fused
gravity/collision/bounds physics pass and the fabric deformation pass of
`SpaceTimeFabric` (`src/components/space-time-fabric.tsx`).  Machine
floating-point numbers are modelled as real numbers; `Math.sqrt` is
`Real.sqrt`.
-/

namespace SpaceTime

/-- `ObjectType` from `src/lib/types.ts`: `Planet = 'planet'`,
`BlackHole = 'blackhole'`. -/
inductive ObjectType where
  | planet
  | blackhole
deriving DecidableEq

/-- A 3-component vector, modelling the `[number, number, number]`
position/velocity tuples. -/
structure Vec3 where
  x : ℝ
  y : ℝ
  z : ℝ

/-- `SpaceTimeObject` from `src/lib/types.ts`. -/
structure SpaceTimeObject where
  id : String
  type : ObjectType
  position : Vec3
  velocity : Vec3
  mass : ℝ
  radius : ℝ

/-- `updateObject` from `src/lib/store.ts`: replace the object whose `id`
matches, elementwise over the list. -/
def updateObject (objects : List SpaceTimeObject) (object : SpaceTimeObject) :
    List SpaceTimeObject :=
  objects.map fun obj => if obj.id = object.id then object else obj

/-- `removeObject` from `src/lib/store.ts`: drop every object whose `id`
matches. -/
def removeObject (objects : List SpaceTimeObject) (id : String) :
    List SpaceTimeObject :=
  objects.filter fun obj => obj.id ≠ id

/-- The Euclidean distance computed in the physics loop of
`space-time-fabric.tsx` (lines 137-140): `dx = ox - px` etc., then
`Math.sqrt(dx*dx + dy*dy + dz*dz)`. -/
noncomputable def dist3 (p q : Vec3) : ℝ :=
  Real.sqrt ((q.x - p.x) * (q.x - p.x) + (q.y - p.y) * (q.y - p.y) +
    (q.z - p.z) * (q.z - p.z))

/-- The horizontal distance computed in the deformation loop of
`space-time-fabric.tsx` (lines 77-80): `dx = x - objX`, `dz = z - objZ`,
`Math.sqrt(dx*dx + dz*dz)`. -/
noncomputable def horizDist (x z ox oz : ℝ) : ℝ :=
  Real.sqrt ((x - ox) * (x - ox) + (z - oz) * (z - oz))

/-- The gravitational velocity contribution of `other` on a body whose
pre-update position is `pOld` (`space-time-fabric.tsx` lines 146-149):
`forceMagnitude = other.mass * 0.1 / (distance * distance)` and
`f_ = (d_ / distance) * forceMagnitude` componentwise. -/
noncomputable def gravContrib (pOld : Vec3) (other : SpaceTimeObject) : Vec3 :=
  let r := dist3 pOld other.position
  let f := other.mass * 0.1 / (r * r)
  ⟨(other.position.x - pOld.x) / r * f,
   (other.position.y - pOld.y) / r * f,
   (other.position.z - pOld.z) / r * f⟩

/-- The planet-planet elastic-collision velocity formula
(`space-time-fabric.tsx` lines 172-176). -/
noncomputable def elasticV (m1 m2 : ℝ) (v1 v2 : Vec3) : Vec3 :=
  ⟨(v1.x * (m1 - m2) + 2 * m2 * v2.x) / (m1 + m2),
   (v1.y * (m1 - m2) + 2 * m2 * v2.y) / (m1 + m2),
   (v1.z * (m1 - m2) + 2 * m2 * v2.z) / (m1 + m2)⟩

/-- The inner `j` loop of the physics pass (`space-time-fabric.tsx`
lines 132-179) for a fixed body `i`.  `pOld` and `vOld` are body `i`'s
position and velocity as destructured at the top of the `i` iteration
(lines 125-126); `obj` is the current mutated body `i`; the list argument
holds the other array entries in iteration order (entries before `i`
already updated this frame, entries after not yet).  Returns the mutated
body and whether it was pushed onto `objectsToRemove` by the
black-hole-absorption branch (which `break`s out of the loop). -/
noncomputable def innerScan (pOld vOld : Vec3) (obj : SpaceTimeObject) :
    List SpaceTimeObject → SpaceTimeObject × Bool
  | [] => (obj, false)
  | other :: rest =>
    let r := dist3 pOld other.position
    if r > 10 then innerScan pOld vOld obj rest
    else
      let c := gravContrib pOld other
      let obj1 := { obj with velocity := ⟨vOld.x + c.x, vOld.y + c.y, vOld.z + c.z⟩ }
      if r < obj.radius + other.radius then
        if other.type = ObjectType.blackhole then (obj1, true)
        else if obj.type = ObjectType.planet ∧ other.type = ObjectType.planet then
          innerScan pOld vOld
            { obj1 with velocity := elasticV obj.mass other.mass obj1.velocity other.velocity }
            rest
        else innerScan pOld vOld obj1 rest
      else innerScan pOld vOld obj1 rest

/-- The position integration of the physics pass (`space-time-fabric.tsx`
line 129): `position = [px + vx * 0.01, py + vy * 0.01, pz + vz * 0.01]`,
applied with the velocity read at the top of the `i` iteration, before the
force loop runs. -/
noncomputable def moved (o : SpaceTimeObject) : SpaceTimeObject :=
  { o with position := ⟨o.position.x + o.velocity.x * 0.01,
      o.position.y + o.velocity.y * 0.01, o.position.z + o.velocity.z * 0.01⟩ }

/-- The code's out-of-bounds test (`space-time-fabric.tsx` line 182) on the
position destructured before the position update: `Math.abs(px) > gridSize
|| Math.abs(pz) > gridSize || py < -10 || py > 10` with `gridSize = 20`. -/
def outOfBounds (p : Vec3) : Prop :=
  |p.x| > 20 ∨ |p.z| > 20 ∨ p.y < -10 ∨ p.y > 10

noncomputable instance (p : Vec3) : Decidable (outOfBounds p) := by
  unfold outOfBounds; infer_instance

/-- The outer `i` loop of the physics pass (`space-time-fabric.tsx`
lines 123-187).  `done` holds the bodies already processed this frame (in
order), the second argument the bodies still to process.  Each body first
has its position advanced by `velocity * 0.01` (line 129, using the
pre-update velocity), then runs the inner scan over all other current
array entries, then the bounds check on its pre-update position.  Returns
the processed bodies paired with their removal flag. -/
noncomputable def outerLoop :
    List SpaceTimeObject → List SpaceTimeObject → List (SpaceTimeObject × Bool)
  | _, [] => []
  | done, obj :: rest =>
    let res := innerScan obj.position obj.velocity (moved obj) (done ++ rest)
    let removed := res.2 || (if outOfBounds obj.position then true else false)
    (res.1, removed) :: outerLoop (done ++ [res.1]) rest

/-- One full physics frame (`space-time-fabric.tsx` lines 118-191): run
the fused update loop, then remove from the store every object whose id
was collected in `objectsToRemove`. -/
noncomputable def physicsStep (objects : List SpaceTimeObject) :
    List SpaceTimeObject :=
  let processed := outerLoop [] objects
  let removeIds := (processed.filter fun r => r.2).map fun r => r.1.id
  (processed.map fun r => r.1).filter fun o => decide (o.id ∉ removeIds)

/-- The hard interaction cutoff of the gravity loop: a neighbour is
skipped exactly when `distance > 10` (`space-time-fabric.tsx` line 143). -/
noncomputable def inCutoff (pOld : Vec3) (o : SpaceTimeObject) : Bool :=
  if dist3 pOld o.position > 10 then false else true

/-- One body's deformation contribution at sample `(x, z)`
(`space-time-fabric.tsx` line 86): `(obj.mass * 2.0) / (distance + 0.2)`. -/
noncomputable def deformContrib (x z : ℝ) (obj : SpaceTimeObject) : ℝ :=
  obj.mass * 2.0 / (horizDist x z obj.position.x obj.position.z + 0.2)

/-- The recomputed height of the fabric sample at `(x, z)`
(`space-time-fabric.tsx` lines 62-89): the `y` is reset to `0`, then for
each object within the mass-scaled cutoff (`distance > obj.mass * 4` is
skipped) the contribution is subtracted. -/
noncomputable def deformationAt (objects : List SpaceTimeObject) (x z : ℝ) : ℝ :=
  objects.foldl
    (fun y obj =>
      if horizDist x z obj.position.x obj.position.z > obj.mass * 4 then y
      else y - deformContrib x z obj)
    0

/-- Square roots of concrete perfect squares, used to evaluate the model at
concrete inputs. -/
theorem sqrt_eval (a b : ℝ) (hb : 0 ≤ b) (h : b * b = a) : Real.sqrt a = b := by
  subst h; rw [Real.sqrt_mul_self hb]

/-- The inner scan only ever rewrites the scanned body's velocity: its id,
type, mass, radius and position pass through unchanged. -/
theorem innerScan_preserve (pOld vOld : Vec3) :
    ∀ (others : List SpaceTimeObject) (obj : SpaceTimeObject),
      (innerScan pOld vOld obj others).1.id = obj.id ∧
      (innerScan pOld vOld obj others).1.type = obj.type ∧
      (innerScan pOld vOld obj others).1.mass = obj.mass ∧
      (innerScan pOld vOld obj others).1.radius = obj.radius ∧
      (innerScan pOld vOld obj others).1.position = obj.position := by
  intro others
  induction others with
  | nil => intro obj; simp [innerScan]
  | cons other rest ih =>
    intro obj
    simp only [innerScan]
    split
    · exact ih obj
    · split
      · split
        · simp
        · split
          · simpa using ih _
          · simpa using ih _
      · simpa using ih _

/-- If no scanned neighbour is a black hole, the scan never sets the
removal flag. -/
theorem innerScan_no_blackhole (pOld vOld : Vec3) :
    ∀ (others : List SpaceTimeObject) (obj : SpaceTimeObject),
      (∀ o ∈ others, o.type ≠ ObjectType.blackhole) →
      (innerScan pOld vOld obj others).2 = false := by
  intro others
  induction others with
  | nil => intro obj _; simp [innerScan]
  | cons other rest ih =>
    intro obj h
    simp only [innerScan]
    split
    · exact ih obj fun o ho => h o (List.mem_cons_of_mem _ ho)
    · split
      · split
        · exact absurd ‹other.type = ObjectType.blackhole›
            (h other (List.mem_cons_self _ _))
        · split
          · exact ih _ fun o ho => h o (List.mem_cons_of_mem _ ho)
          · exact ih _ fun o ho => h o (List.mem_cons_of_mem _ ho)
      · exact ih _ fun o ho => h o (List.mem_cons_of_mem _ ho)

/-- When the first scanned neighbour is an overlapping black hole within the
10-unit cutoff, the scan flags the body for removal immediately. -/
theorem innerScan_absorb (pOld vOld : Vec3) (obj other : SpaceTimeObject)
    (rest : List SpaceTimeObject)
    (h10 : dist3 pOld other.position ≤ 10)
    (hover : dist3 pOld other.position < obj.radius + other.radius)
    (hbh : other.type = ObjectType.blackhole) :
    (innerScan pOld vOld obj (other :: rest)).2 = true := by
  simp only [innerScan]
  rw [if_neg (not_lt.mpr h10), if_pos hover, if_pos hbh]

/-- Every processed body in the outer loop is some input body moved by
`velocity * 0.01` (its velocity possibly rewritten by the scan). -/
theorem outerLoop_mem :
    ∀ (objs done : List SpaceTimeObject) (r : SpaceTimeObject × Bool),
      r ∈ outerLoop done objs →
      ∃ o ∈ objs, r.1.id = o.id ∧
        r.1.position = ⟨o.position.x + o.velocity.x * 0.01,
                        o.position.y + o.velocity.y * 0.01,
                        o.position.z + o.velocity.z * 0.01⟩ := by
  intro objs
  induction objs with
  | nil => intro done r hr; simp [outerLoop] at hr
  | cons obj rest ih =>
    intro done r hr
    simp only [outerLoop, List.mem_cons] at hr
    rcases hr with hr | hr
    · refine ⟨obj, List.mem_cons_self _ _, ?_⟩
      subst hr
      have h := innerScan_preserve obj.position obj.velocity
        (done ++ rest) (moved obj)
      exact ⟨h.1, h.2.2.2.2⟩
    · obtain ⟨o, ho, h1, h2⟩ := ih _ _ hr
      exact ⟨o, List.mem_cons_of_mem _ ho, h1, h2⟩

theorem horizDist_nonneg (x z ox oz : ℝ) : 0 ≤ horizDist x z ox oz :=
  Real.sqrt_nonneg _

theorem inCutoff_iff (pOld : Vec3) (o : SpaceTimeObject) :
    inCutoff pOld o = true ↔ ¬ dist3 pOld o.position > 10 := by
  unfold inCutoff; split <;> simp_all

/-- Claim C9: `updateObject` and `removeObject` with an id absent from the
store leave the object list exactly unchanged — a no-op, not an error. -/
theorem store_unknown_id_noop :
    ∀ (objects : List SpaceTimeObject) (x : SpaceTimeObject),
      x.id ∉ objects.map SpaceTimeObject.id →
      updateObject objects x = objects ∧ removeObject objects x.id = objects := by
  intro objects
  induction objects with
  | nil => intro x _; exact ⟨rfl, rfl⟩
  | cons obj rest ih =>
    intro x h
    simp only [List.map_cons, List.mem_cons] at h
    push_neg at h
    obtain ⟨h1, h2⟩ := h
    obtain ⟨ihu, ihr⟩ := ih x h2
    refine ⟨?_, ?_⟩
    · simp only [updateObject, List.map_cons, if_neg (Ne.symm h1)]
      exact congrArg (obj :: ·) ihu
    · simp only [removeObject, List.filter_cons]
      rw [if_pos (by simpa using Ne.symm h1)]
      exact congrArg (obj :: ·) ihr

/-- Witness for claim C9: a store holding only id `"a"` is untouched by
`updateObject`/`removeObject` aimed at the unknown id `"b"`. -/
theorem store_unknown_id_noop_witness :
    updateObject [⟨"a", ObjectType.planet, ⟨0, 0, 0⟩, ⟨0, 0, 0⟩, 1, 1⟩]
        ⟨"b", ObjectType.planet, ⟨5, 0, 0⟩, ⟨0, 0, 0⟩, 2, 1⟩ =
      [⟨"a", ObjectType.planet, ⟨0, 0, 0⟩, ⟨0, 0, 0⟩, 1, 1⟩] ∧
    removeObject [⟨"a", ObjectType.planet, ⟨0, 0, 0⟩, ⟨0, 0, 0⟩, 1, 1⟩] "b" =
      [⟨"a", ObjectType.planet, ⟨0, 0, 0⟩, ⟨0, 0, 0⟩, 1, 1⟩] :=
  store_unknown_id_noop _ ⟨"b", ObjectType.planet, ⟨5, 0, 0⟩, ⟨0, 0, 0⟩, 2, 1⟩
    (by simp)

theorem deform_foldl_le :
    ∀ (objects : List SpaceTimeObject) (x z y : ℝ),
      (∀ o ∈ objects, 0 < o.mass) →
      objects.foldl
        (fun y obj =>
          if horizDist x z obj.position.x obj.position.z > obj.mass * 4 then y
          else y - deformContrib x z obj) y ≤ y := by
  intro objects
  induction objects with
  | nil => intro x z y _; simp
  | cons obj rest ih =>
    intro x z y h
    have hstep :
        (if horizDist x z obj.position.x obj.position.z > obj.mass * 4 then y
          else y - deformContrib x z obj) ≤ y := by
      split
      · exact le_refl y
      · have hc : 0 < deformContrib x z obj := by
          have hd := horizDist_nonneg x z obj.position.x obj.position.z
          have hm := h obj (List.mem_cons_self _ _)
          unfold deformContrib
          positivity
        linarith
    calc List.foldl _ _ rest ≤ _ := ih x z _ fun o ho => h o (List.mem_cons_of_mem _ ho)
      _ ≤ y := hstep

/-- Claim C10: when every body has positive mass, every recomputed fabric
height is at most the zero baseline — the pass resets to zero and then only
subtracts strictly positive contributions. -/
theorem deformation_nonpositive (objects : List SpaceTimeObject) (x z : ℝ)
    (h : ∀ o ∈ objects, 0 < o.mass) :
    deformationAt objects x z ≤ 0 :=
  deform_foldl_le objects x z 0 h

/-- Witness for claim C10 at a concrete one-body store and sample point. -/
theorem deformation_nonpositive_witness :
    deformationAt [⟨"a", ObjectType.planet, ⟨0, 0, 0⟩, ⟨0, 0, 0⟩, 1, 1⟩] 1 1 ≤ 0 :=
  deformation_nonpositive _ 1 1 (by intro o ho; simp at ho; rw [ho]; norm_num)

/-- Claim C7, amended: for a single positive-mass body, the height
magnitude at a sample strictly decreases as the sample's horizontal
distance grows, as long as the farther sample is still within the
mass-scaled cutoff `mass * 4`; beyond the cutoff the height is constantly
zero, so the decrease is not strict there. -/
theorem deformation_monotone_within_cutoff (b : SpaceTimeObject)
    (hm : 0 < b.mass) (x1 z1 x2 z2 : ℝ)
    (h12 : horizDist x1 z1 b.position.x b.position.z <
      horizDist x2 z2 b.position.x b.position.z)
    (h2c : horizDist x2 z2 b.position.x b.position.z ≤ b.mass * 4) :
    |deformationAt [b] x2 z2| < |deformationAt [b] x1 z1| := by
  have hd1 := horizDist_nonneg x1 z1 b.position.x b.position.z
  have hd2 := horizDist_nonneg x2 z2 b.position.x b.position.z
  have h1c : horizDist x1 z1 b.position.x b.position.z ≤ b.mass * 4 :=
    le_of_lt (lt_of_lt_of_le h12 h2c)
  simp only [deformationAt, List.foldl_cons, List.foldl_nil,
    if_neg (not_lt.mpr h2c), if_neg (not_lt.mpr h1c)]
  have hc1 : 0 < deformContrib x1 z1 b := by unfold deformContrib; positivity
  have hc2 : 0 < deformContrib x2 z2 b := by unfold deformContrib; positivity
  rw [zero_sub, zero_sub, abs_neg, abs_neg, abs_of_pos hc1, abs_of_pos hc2]
  unfold deformContrib
  apply div_lt_div_of_pos_left (by positivity) (by positivity)
  linarith

/-- Witness for the amended claim C7: for a unit-mass body at the origin,
the well is strictly shallower at horizontal distance 2 than at 1. -/
theorem deformation_monotone_witness :
    |deformationAt [⟨"a", ObjectType.planet, ⟨0, 0, 0⟩, ⟨0, 0, 0⟩, 1, 1⟩] 2 0| <
      |deformationAt [⟨"a", ObjectType.planet, ⟨0, 0, 0⟩, ⟨0, 0, 0⟩, 1, 1⟩] 1 0| := by
  have h1 : Real.sqrt 1 = 1 := Real.sqrt_one
  have h4 : Real.sqrt 4 = 2 := sqrt_eval 4 2 (by norm_num) (by norm_num)
  refine deformation_monotone_within_cutoff _ (by norm_num) 1 0 2 0 ?_ ?_ <;>
    norm_num [horizDist, h1, h4]

/-- Counterexample to claim C7 as stated: for a unit-mass body at the
origin, the samples at horizontal distances 5 and 6 both lie beyond the
`mass * 4` cutoff, so both heights are exactly zero and the magnitude does
not strictly decrease between them. -/
theorem deformation_monotone_counterexample :
    horizDist 5 0 (0 : ℝ) 0 < horizDist 6 0 (0 : ℝ) 0 ∧
    ¬ (|deformationAt [⟨"a", ObjectType.planet, ⟨0, 0, 0⟩, ⟨0, 0, 0⟩, 1, 1⟩] 6 0| <
       |deformationAt [⟨"a", ObjectType.planet, ⟨0, 0, 0⟩, ⟨0, 0, 0⟩, 1, 1⟩] 5 0|) := by
  have h25 : Real.sqrt 25 = 5 := sqrt_eval 25 5 (by norm_num) (by norm_num)
  have h36 : Real.sqrt 36 = 6 := sqrt_eval 36 6 (by norm_num) (by norm_num)
  constructor
  · norm_num [horizDist, h25, h36]
  · norm_num [deformationAt, horizDist, h25, h36]

/-- Counterexample to claim C8 as stated: the distance used as the divisor
of the gravity computation is not floored — for two coincident bodies it is
exactly zero, yet the `distance > 10` cutoff does not skip the pair, so the
force computation divides by zero. -/
theorem distance_floor_counterexample :
    dist3 ⟨0, 0, 0⟩ ⟨0, 0, 0⟩ = 0 ∧ ¬ dist3 ⟨0, 0, 0⟩ ⟨0, 0, 0⟩ > 10 := by
  norm_num [dist3]

/-- Claim C8, amended: only the deformation divisions are guarded by a
minimum-distance floor (`distance + 0.2 ≥ 0.2`); the gravity division is
by the raw distance, which vanishes whenever two bodies coincide. -/
theorem distance_floor_partial :
    (∀ x z ox oz : ℝ, 0.2 ≤ horizDist x z ox oz + 0.2) ∧
    (∀ p : Vec3, dist3 p p = 0) := by
  constructor
  · intro x z ox oz
    have := horizDist_nonneg x z ox oz
    linarith
  · intro p; simp [dist3]

/-- Claim C4, amended: one step removes a lone body exactly when its
pre-update position has `|x| > 20` or `|z| > 20` (per-axis, full grid
side) or `y` outside `[-10, 10]`; otherwise it survives with its position
advanced by `velocity * 0.01`, regardless of velocity. -/
theorem bounds_prune_exact (a : SpaceTimeObject) :
    physicsStep [a] =
      if outOfBounds a.position then [] else [moved a] := by
  by_cases hb : outOfBounds a.position <;>
    simp [physicsStep, outerLoop, innerScan, hb]

/-- Counterexample to claim C4 as stated: a body at `(11, 0, 0)` has
horizontal distance 11 > 10 (half the grid side) from the origin, so the
claim says it is removed, yet the step keeps it. -/
theorem bounds_prune_counterexample :
    Real.sqrt ((11 : ℝ) * 11 + 0 * 0) > 10 ∧
    (physicsStep [⟨"a", ObjectType.planet, ⟨11, 0, 0⟩, ⟨0, 0, 0⟩, 1, 1⟩]).length = 1 := by
  have h121 : Real.sqrt 121 = 11 := sqrt_eval 121 11 (by norm_num) (by norm_num)
  constructor
  · norm_num [h121]
  · norm_num +decide [physicsStep, outerLoop, innerScan, outOfBounds]

/-- Claim C5, amended: every body surviving a step has its position equal
to its old position plus its PRE-update velocity times `dt = 0.01` —
position integration runs before force accumulation, not after. -/
theorem position_before_forces (objects : List SpaceTimeObject)
    (x : SpaceTimeObject) (hx : x ∈ physicsStep objects) :
    ∃ o ∈ objects, x.id = o.id ∧
      x.position = ⟨o.position.x + o.velocity.x * 0.01,
        o.position.y + o.velocity.y * 0.01, o.position.z + o.velocity.z * 0.01⟩ := by
  unfold physicsStep at hx
  have hx' := (List.mem_filter.mp hx).1
  obtain ⟨r, hr, hrx⟩ := List.mem_map.mp hx'
  obtain ⟨o, ho, h1, h2⟩ := outerLoop_mem objects [] r hr
  exact ⟨o, ho, hrx ▸ h1, hrx ▸ h2⟩

/-- Witness for the amended claim C5 at a concrete one-body store. -/
theorem position_before_forces_witness :
    ∃ o ∈ [(⟨"w", ObjectType.planet, ⟨1, 2, 3⟩, ⟨100, 0, 0⟩, 1, 1⟩ : SpaceTimeObject)],
      (⟨"w", ObjectType.planet, ⟨2, 2, 3⟩, ⟨100, 0, 0⟩, 1, 1⟩ : SpaceTimeObject).id = o.id ∧
      (⟨"w", ObjectType.planet, ⟨2, 2, 3⟩, ⟨100, 0, 0⟩, 1, 1⟩ : SpaceTimeObject).position =
        ⟨o.position.x + o.velocity.x * 0.01, o.position.y + o.velocity.y * 0.01,
         o.position.z + o.velocity.z * 0.01⟩ :=
  position_before_forces _ _ (by
    norm_num +decide [physicsStep, outerLoop, innerScan, moved, outOfBounds])

/-- Counterexample to claim C5 as stated: two mutually attracting planets
at rest; after one step the first body's velocity is `1/90` but its
position is unchanged — not old position plus new velocity times `dt`. -/
theorem position_update_counterexample :
    (physicsStep
      [⟨"a", ObjectType.planet, ⟨0, 0, 0⟩, ⟨0, 0, 0⟩, 1, 0.1⟩,
       ⟨"b", ObjectType.planet, ⟨3, 0, 0⟩, ⟨0, 0, 0⟩, 1, 0.1⟩]).map
        (fun o => (o.position.x, o.velocity.x)) = [(0, 1 / 90), (3, -1 / 90)] ∧
    (0 : ℝ) ≠ 0 + 1 / 90 * 0.01 := by
  have h9 : Real.sqrt 9 = 3 := sqrt_eval 9 3 (by norm_num) (by norm_num)
  constructor
  · norm_num +decide [physicsStep, outerLoop, innerScan, gravContrib, elasticV, dist3,
      moved, outOfBounds, h9]
  · norm_num

/-- Claim C2, amended: in the gravity loop each in-cutoff neighbour
OVERWRITES the body's velocity with `oldVelocity + its own contribution`
(the code adds forces to the velocity destructured before the loop), so
when no collision branch fires the final velocity reflects only the last
in-cutoff neighbour — contributions do not accumulate — and neighbours
beyond the 10-unit cutoff contribute exactly zero. -/
theorem grav_overwrite (pOld vOld : Vec3) :
    ∀ (others : List SpaceTimeObject) (obj : SpaceTimeObject),
      (∀ o ∈ others, inCutoff pOld o = true →
        ¬ dist3 pOld o.position < obj.radius + o.radius) →
      (innerScan pOld vOld obj others).1.velocity =
        (others.filter (inCutoff pOld)).foldl
          (fun _ o => ⟨vOld.x + (gravContrib pOld o).x,
                       vOld.y + (gravContrib pOld o).y,
                       vOld.z + (gravContrib pOld o).z⟩)
          obj.velocity := by
  intro others
  induction others with
  | nil => intro obj _; simp [innerScan]
  | cons other rest ih =>
    intro obj h
    by_cases hc : inCutoff pOld other = true
    · have hfar : ¬ dist3 pOld other.position > 10 := (inCutoff_iff _ _).mp hc
      have hnocol : ¬ dist3 pOld other.position < obj.radius + other.radius :=
        h other (List.mem_cons_self _ _) hc
      rw [List.filter_cons_of_pos hc]
      simp only [innerScan]
      rw [if_neg hfar, if_neg hnocol, List.foldl_cons]
      exact ih _ fun o ho hco => h o (List.mem_cons_of_mem _ ho) hco
    · have hfar : dist3 pOld other.position > 10 := by
        by_contra hn
        exact hc ((inCutoff_iff _ _).mpr hn)
      rw [List.filter_cons_of_neg (by simp [hc])]
      simp only [innerScan]
      rw [if_pos hfar]
      exact ih obj fun o ho hco => h o (List.mem_cons_of_mem _ ho) hco

/-- Witness for the amended claim C2: a body at the origin scanned against
two non-colliding in-cutoff neighbours. -/
theorem grav_overwrite_witness :
    (innerScan ⟨0, 0, 0⟩ ⟨0, 0, 0⟩
      ⟨"a", ObjectType.planet, ⟨0, 0, 0⟩, ⟨0, 0, 0⟩, 1, 0.1⟩
      [⟨"b", ObjectType.planet, ⟨3, 0, 0⟩, ⟨0, 0, 0⟩, 1, 0.1⟩,
       ⟨"c", ObjectType.planet, ⟨-4, 0, 0⟩, ⟨0, 0, 0⟩, 1, 0.1⟩]).1.velocity =
    ([⟨"b", ObjectType.planet, ⟨3, 0, 0⟩, ⟨0, 0, 0⟩, 1, 0.1⟩,
      ⟨"c", ObjectType.planet, ⟨-4, 0, 0⟩, ⟨0, 0, 0⟩, 1, 0.1⟩].filter
        (inCutoff ⟨0, 0, 0⟩)).foldl
      (fun _ o => ⟨(0 : ℝ) + (gravContrib ⟨0, 0, 0⟩ o).x,
                   (0 : ℝ) + (gravContrib ⟨0, 0, 0⟩ o).y,
                   (0 : ℝ) + (gravContrib ⟨0, 0, 0⟩ o).z⟩)
      (⟨"a", ObjectType.planet, ⟨0, 0, 0⟩, ⟨0, 0, 0⟩, 1, 0.1⟩ :
        SpaceTimeObject).velocity :=
  grav_overwrite ⟨0, 0, 0⟩ ⟨0, 0, 0⟩ _ _ (by
    have h9 : Real.sqrt 9 = 3 := sqrt_eval 9 3 (by norm_num) (by norm_num)
    have h16 : Real.sqrt 16 = 4 := sqrt_eval 16 4 (by norm_num) (by norm_num)
    intro o ho
    rcases List.mem_cons.mp ho with h | h
    · subst h; norm_num [dist3, h9]
    · simp only [List.mem_singleton] at h
      subst h; norm_num [dist3, h16])

/-- Counterexample to claim C2 as stated: three resting planets at
`x = 0, 3, -4` are all within the cutoff of each other; body `a`'s
post-step velocity is `-1/160` — the contribution of the LAST neighbour
alone — whereas old velocity plus the sum of contributions would be
`1/90 - 1/160`. -/
theorem gravity_sum_counterexample :
    (physicsStep
      [⟨"a", ObjectType.planet, ⟨0, 0, 0⟩, ⟨0, 0, 0⟩, 1, 0.1⟩,
       ⟨"b", ObjectType.planet, ⟨3, 0, 0⟩, ⟨0, 0, 0⟩, 1, 0.1⟩,
       ⟨"c", ObjectType.planet, ⟨-4, 0, 0⟩, ⟨0, 0, 0⟩, 1, 0.1⟩]).map
        (fun o => o.velocity) =
      [⟨-1 / 160, 0, 0⟩, ⟨-1 / 490, 0, 0⟩, ⟨1 / 490, 0, 0⟩] ∧
    (gravContrib ⟨0, 0, 0⟩
        ⟨"b", ObjectType.planet, ⟨3, 0, 0⟩, ⟨0, 0, 0⟩, 1, 0.1⟩).x +
      (gravContrib ⟨0, 0, 0⟩
        ⟨"c", ObjectType.planet, ⟨-4, 0, 0⟩, ⟨0, 0, 0⟩, 1, 0.1⟩).x =
      1 / 90 - 1 / 160 ∧
    (-1 / 160 : ℝ) ≠ 0 + (1 / 90 - 1 / 160) := by
  have h9 : Real.sqrt 9 = 3 := sqrt_eval 9 3 (by norm_num) (by norm_num)
  have h16 : Real.sqrt 16 = 4 := sqrt_eval 16 4 (by norm_num) (by norm_num)
  have h49 : Real.sqrt 49 = 7 := sqrt_eval 49 7 (by norm_num) (by norm_num)
  refine ⟨?_, ?_, by norm_num⟩
  · norm_num +decide [physicsStep, outerLoop, innerScan, gravContrib, elasticV,
      dist3, moved, outOfBounds, h9, h16, h49]
  · norm_num [gravContrib, dist3, h9, h16]

/-- Claim C3: a Planet whose separation from a BlackHole (as computed by
the collision check, within the 10-unit cutoff) is below the sum of their
radii is removed by one step, while the BlackHole survives with id, mass,
radius and type unchanged. -/
theorem planet_absorption (p b : SpaceTimeObject)
    (hp : p.type = ObjectType.planet)
    (hb : b.type = ObjectType.blackhole)
    (hid : p.id ≠ b.id)
    (h10 : dist3 p.position b.position ≤ 10)
    (hover : dist3 p.position b.position < p.radius + b.radius)
    (hbnd : ¬ outOfBounds b.position) :
    ∃ b', physicsStep [p, b] = [b'] ∧ b'.id = b.id ∧ b'.mass = b.mass ∧
      b'.radius = b.radius ∧ b'.type = b.type := by
  simp only [physicsStep, outerLoop, List.nil_append, List.append_nil]
  rw [innerScan_absorb p.position p.velocity (moved p) b [] h10 hover hb]
  have hnb : ∀ o ∈ [(innerScan p.position p.velocity (moved p) [b]).1],
      o.type ≠ ObjectType.blackhole := by
    intro o ho
    simp only [List.mem_singleton] at ho
    subst ho
    have hty := (innerScan_preserve p.position p.velocity [b] (moved p)).2.1
    rw [hty, show (moved p).type = p.type from rfl, hp]
    simp
  rw [innerScan_no_blackhole b.position b.velocity
    [(innerScan p.position p.velocity (moved p) [b]).1] (moved b) hnb]
  rw [if_neg hbnd]
  have hpid : (innerScan p.position p.velocity (moved p) [b]).1.id = p.id :=
    (innerScan_preserve p.position p.velocity [b] (moved p)).1
  have hpre := innerScan_preserve b.position b.velocity
    [(innerScan p.position p.velocity (moved p) [b]).1] (moved b)
  refine ⟨(innerScan b.position b.velocity (moved b)
      [(innerScan p.position p.velocity (moved p) [b]).1]).1,
    ?_, hpre.1, hpre.2.2.1, hpre.2.2.2.1, hpre.2.1⟩
  have hne : (moved b).id ∉ [p.id] := by
    simpa [moved] using (Ne.symm hid : b.id ≠ p.id)
  simp [hpid, hpre.1, hne]
  simpa using hne

/-- Witness for claim C3: a planet at the origin overlapping a black hole
at `(1, 0, 0)` is absorbed; only the black hole remains, unchanged. -/
theorem planet_absorption_witness :
    ∃ b', physicsStep
        [⟨"p", ObjectType.planet, ⟨0, 0, 0⟩, ⟨0, 0, 0⟩, 1, 1⟩,
         ⟨"b", ObjectType.blackhole, ⟨1, 0, 0⟩, ⟨0, 0, 0⟩, 3, 2⟩] = [b'] ∧
      b'.id = "b" ∧ b'.mass = 3 ∧ b'.radius = 2 ∧
      b'.type = ObjectType.blackhole :=
  planet_absorption _ _ rfl rfl (by decide)
    (by norm_num [dist3, Real.sqrt_one])
    (by norm_num [dist3, Real.sqrt_one])
    (by norm_num [outOfBounds])

/-- Claim C6, amended: two overlapping BlackHoles (mutually within the
cutoff) are BOTH removed by the collision pass — each one hits the
absorption branch against the other. -/
theorem blackhole_pair_both_removed (b1 b2 : SpaceTimeObject)
    (h1 : b1.type = ObjectType.blackhole) (h2 : b2.type = ObjectType.blackhole)
    (h10 : dist3 b1.position b2.position ≤ 10)
    (hov : dist3 b1.position b2.position < b1.radius + b2.radius)
    (h10' : dist3 b2.position (moved b1).position ≤ 10)
    (hov' : dist3 b2.position (moved b1).position < b2.radius + b1.radius) :
    physicsStep [b1, b2] = [] := by
  simp only [physicsStep, outerLoop, List.nil_append, List.append_nil]
  rw [innerScan_absorb b1.position b1.velocity (moved b1) b2 [] h10 hov h2]
  have hpre := innerScan_preserve b1.position b1.velocity [b2] (moved b1)
  have h10b : dist3 b2.position
      (innerScan b1.position b1.velocity (moved b1) [b2]).1.position ≤ 10 := by
    rw [hpre.2.2.2.2]; exact h10'
  have hovb : dist3 b2.position
      (innerScan b1.position b1.velocity (moved b1) [b2]).1.position <
      (moved b2).radius +
        (innerScan b1.position b1.velocity (moved b1) [b2]).1.radius := by
    rw [hpre.2.2.2.2, hpre.2.2.2.1]; exact hov'
  have hbhb : (innerScan b1.position b1.velocity (moved b1) [b2]).1.type =
      ObjectType.blackhole := hpre.2.1.trans h1
  rw [innerScan_absorb b2.position b2.velocity (moved b2)
    (innerScan b1.position b1.velocity (moved b1) [b2]).1 [] h10b hovb hbhb]
  simp

/-- Witness for the amended claim C6 at two concrete overlapping black
holes. -/
theorem blackhole_pair_both_removed_witness :
    physicsStep
      [⟨"x", ObjectType.blackhole, ⟨0, 0, 0⟩, ⟨0, 0, 0⟩, 3, 2⟩,
       ⟨"y", ObjectType.blackhole, ⟨1, 0, 0⟩, ⟨0, 0, 0⟩, 3, 2⟩] = [] :=
  blackhole_pair_both_removed _ _ rfl rfl
    (by norm_num [dist3, Real.sqrt_one])
    (by norm_num [dist3, Real.sqrt_one])
    (by norm_num [dist3, moved, Real.sqrt_one])
    (by norm_num [dist3, moved, Real.sqrt_one])

/-- Counterexample to claim C6 as stated: one step over two overlapping
resting black holes leaves an EMPTY store — both are removed, rather than
neither. -/
theorem blackhole_pair_counterexample :
    physicsStep
      [⟨"b1", ObjectType.blackhole, ⟨0, 0, 0⟩, ⟨0, 0, 0⟩, 3, 2⟩,
       ⟨"b2", ObjectType.blackhole, ⟨1, 0, 0⟩, ⟨0, 0, 0⟩, 3, 2⟩] = [] := by
  norm_num +decide [physicsStep, outerLoop, innerScan, gravContrib, elasticV,
    dist3, moved, outOfBounds, Real.sqrt_one]

/-- Claim C1: the collision pass does NOT conserve momentum and does not
swap equal-mass head-on velocities.  Two equal-mass planets approaching
with velocities `+100` and `-100` BOTH leave the step with velocity
`-100`: the second planet's update reads the first planet's
already-rewritten velocity, so total momentum changes from `0` to `-200`,
contradicting the claimed elastic swap to `-v, +v`. -/
theorem collision_momentum_violation :
    (physicsStep
      [⟨"a", ObjectType.planet, ⟨-1, 0, 0⟩, ⟨100, 0, 0⟩, 1, 1.5⟩,
       ⟨"b", ObjectType.planet, ⟨1, 0, 0⟩, ⟨-100, 0, 0⟩, 1, 1.5⟩]).map
        (fun o => o.velocity) = [⟨-100, 0, 0⟩, ⟨-100, 0, 0⟩] ∧
    (1 : ℝ) * (-100) + 1 * (-100) ≠ 1 * 100 + 1 * (-100) := by
  have hsq4 : Real.sqrt 4 = 2 := sqrt_eval 4 2 (by norm_num) (by norm_num)
  constructor
  · norm_num +decide [physicsStep, outerLoop, innerScan, gravContrib, elasticV,
      dist3, moved, outOfBounds, hsq4, Real.sqrt_one]
  · norm_num

end SpaceTime
